import Mathlib

/-!
Shallow embedding of the timer synchronization core of the
desafio-cronometro repository: the data model of
`src/my-app/src/lib/supabase.ts` and the control-page logic of
`src/my-app/src/app/page.tsx` (lifecycle mutations, the broadcast
receive handler, and the periodic tick loop), with the external side
effects (Durable Store writes, channel publishes, local cache writes)
made explicit as an effect list.
-/

/-- Claim source: the `TimerState` union of supabase.ts. -/
inductive TimerState where
  | stopped
  | running
  | paused
deriving DecidableEq, Repr

/-- Claim source: the `Timer` interface of supabase.ts. Time counts are
modelled as integers (the countdown may go negative). -/
structure Timer where
  id : String
  name : String
  timeRemaining : Int
  totalTime : Int
  state : TimerState
deriving DecidableEq, Repr

/-- The ordered Timer Set: the unit of broadcast and persistence. -/
abbrev TimerSet := List Timer

/-- Source constant `DEFAULT_TIME = 5 * 60`. -/
def DEFAULT_TIME : Int := 5 * 60

/-- The initial value of the `timers` React state in `ControlPage`: two
default timers of `DEFAULT_TIME` seconds, stopped. The ids come from
`generateId()` and are modelled as parameters. -/
def defaultTimers (id1 id2 : String) : TimerSet :=
  [ { id := id1, name := "Orador 1", timeRemaining := DEFAULT_TIME,
      totalTime := DEFAULT_TIME, state := .stopped },
    { id := id2, name := "Orador 2", timeRemaining := DEFAULT_TIME,
      totalTime := DEFAULT_TIME, state := .stopped } ]

/-- External side effects of the control-page logic:
`storeWrite` models `saveTimersToDatabase`, `publish` models
`channelRef.current.send` of a broadcast payload, `cacheWrite` models
`localStorage.setItem` of the timers key. -/
inductive Effect where
  | storeWrite (timers : TimerSet)
  | publish (timers : TimerSet) (lastUpdate : Int)
  | cacheWrite (timers : TimerSet)
deriving DecidableEq, Repr

/-- The refs and React state of `ControlPage` that drive the protocol:
the timer set, `lastBroadcastTime.current`, `lastReceivedBroadcast.current`
(the last-remote-broadcast marker), and the tick counter local to the
interval effect. -/
structure ParticipantState where
  timers : TimerSet
  lastBroadcastTime : Int
  lastReceivedBroadcast : Int
  tickCount : Nat
deriving DecidableEq, Repr

/-- `broadcastTimers(newTimers, saveToDb)`: optionally write the Durable
Store, always publish the payload on the realtime channel and mirror the
set into the local cache. -/
def broadcastTimers (now : Int) (newTimers : TimerSet) (saveToDb : Bool) :
    List Effect :=
  (if saveToDb then [Effect.storeWrite newTimers] else []) ++
    [Effect.publish newTimers now, Effect.cacheWrite newTimers]

/-- `startTimer(timerId)`: clears the last-remote-broadcast marker, stamps
`lastBroadcastTime`, and sets the targeted timer running only when its
`timeRemaining` is positive. -/
def startTimer (now : Int) (timerId : String) (s : ParticipantState) :
    ParticipantState × List Effect :=
  let updated := s.timers.map fun t =>
    if t.id = timerId ∧ t.timeRemaining > 0 then { t with state := .running }
    else t
  ({ s with timers := updated, lastReceivedBroadcast := 0,
            lastBroadcastTime := now },
    broadcastTimers now updated true)

/-- `pauseTimer(timerId)`: sets the targeted timer to paused. -/
def pauseTimer (now : Int) (timerId : String) (s : ParticipantState) :
    ParticipantState × List Effect :=
  let updated := s.timers.map fun t =>
    if t.id = timerId then { t with state := .paused } else t
  ({ s with timers := updated }, broadcastTimers now updated true)

/-- `resetTimer(timerId)`: restores `timeRemaining` to `totalTime` and
stops the targeted timer. -/
def resetTimer (now : Int) (timerId : String) (s : ParticipantState) :
    ParticipantState × List Effect :=
  let updated := s.timers.map fun t =>
    if t.id = timerId then
      { t with timeRemaining := t.totalTime, state := .stopped }
    else t
  ({ s with timers := updated }, broadcastTimers now updated true)

/-- `resetAll()`: resets every timer. -/
def resetAll (now : Int) (s : ParticipantState) :
    ParticipantState × List Effect :=
  let updated := s.timers.map fun t =>
    { t with timeRemaining := t.totalTime, state := .stopped }
  ({ s with timers := updated }, broadcastTimers now updated true)

/-- `pauseAll()`: pauses exactly the timers currently running. -/
def pauseAll (now : Int) (s : ParticipantState) :
    ParticipantState × List Effect :=
  let updated := s.timers.map fun t =>
    { t with state := if t.state = .running then .paused else t.state }
  ({ s with timers := updated }, broadcastTimers now updated true)

/-- `updateTimerName(timerId, name)`: renames the targeted timer. -/
def updateTimerName (now : Int) (timerId name : String)
    (s : ParticipantState) : ParticipantState × List Effect :=
  let updated := s.timers.map fun t =>
    if t.id = timerId then { t with name := name } else t
  ({ s with timers := updated }, broadcastTimers now updated true)

/-- `updateTimerTime(timerId, minutes, seconds)`: sets both time fields to
the new duration and forces the stopped state. -/
def updateTimerTime (now : Int) (timerId : String) (minutes seconds : Int)
    (s : ParticipantState) : ParticipantState × List Effect :=
  let totalSeconds := minutes * 60 + seconds
  let updated := s.timers.map fun t =>
    if t.id = timerId then
      { t with timeRemaining := totalSeconds, totalTime := totalSeconds,
               state := .stopped }
    else t
  ({ s with timers := updated }, broadcastTimers now updated true)

/-- `addTimer()`: appends a fresh stopped timer built from the custom
minutes/seconds inputs; the generated id is a parameter. -/
def addTimer (now : Int) (customMinutes customSeconds : Int) (newId : String)
    (s : ParticipantState) : ParticipantState × List Effect :=
  let totalSeconds := customMinutes * 60 + customSeconds
  let newTimer : Timer :=
    { id := newId, name := "Orador " ++ toString (s.timers.length + 1),
      timeRemaining := totalSeconds, totalTime := totalSeconds,
      state := .stopped }
  let updated := s.timers ++ [newTimer]
  ({ s with timers := updated }, broadcastTimers now updated true)

/-- `removeTimer(timerId)`: a guard returns early when at most one timer
remains; otherwise every timer whose id differs is kept. -/
def removeTimer (now : Int) (timerId : String) (s : ParticipantState) :
    ParticipantState × List Effect :=
  if s.timers.length ≤ 1 then (s, [])
  else
    let updated := s.timers.filter fun t => !(t.id == timerId)
    ({ s with timers := updated }, broadcastTimers now updated true)

/-- The inbound broadcast payload as the handler sees it: each field may
be missing (`payload.timers` / `payload.lastUpdate` absent). -/
structure RawPayload where
  timers : Option TimerSet
  lastUpdate : Option Int
deriving DecidableEq, Repr

/-- JavaScript truthiness of the `lastUpdate` number in the guard
`payload && payload.timers && payload.lastUpdate`: the number 0 is falsy. -/
def truthyInt (n : Int) : Bool := n != 0

/-- The `broadcast` event handler: validate the payload shape, apply the
50ms deadband against `lastBroadcastTime`, and on acceptance record the
arrival time in the last-remote-broadcast marker and adopt the payload
set. The handler itself emits no external effects. -/
def onBroadcast (arrival : Int) (payload : Option RawPayload)
    (s : ParticipantState) : ParticipantState × List Effect :=
  match payload with
  | none => (s, [])
  | some p =>
    match p.timers, p.lastUpdate with
    | some ts, some lu =>
      if truthyInt lu then
        if (lu - s.lastBroadcastTime).natAbs > 50 then
          ({ s with lastReceivedBroadcast := arrival, timers := ts }, [])
        else (s, [])
      else (s, [])
    | _, _ => (s, [])

/-- `prev.some(t => t.state === "running")`. -/
def hasRunning (timers : TimerSet) : Bool :=
  timers.any fun t => t.state = .running

/-- The per-tick decrement: every running timer loses one second (no
floor), every other timer is returned unchanged. -/
def decTimers (timers : TimerSet) : TimerSet :=
  timers.map fun t =>
    if t.state = .running then { t with timeRemaining := t.timeRemaining - 1 }
    else t

/-- One execution of the 1000ms interval callback: skip when a remote
broadcast was received within the last 2000ms (and the marker is set);
otherwise, when some timer is running, decrement the running timers, bump
the tick counter, stamp `lastBroadcastTime`, and broadcast — writing the
Durable Store only on every 5th counted tick. -/
def tick (now : Int) (s : ParticipantState) : ParticipantState × List Effect :=
  if now - s.lastReceivedBroadcast < 2000 ∧ s.lastReceivedBroadcast > 0 then
    (s, [])
  else if hasRunning s.timers then
    ({ s with timers := decTimers s.timers, tickCount := s.tickCount + 1,
              lastBroadcastTime := now },
      broadcastTimers now (decTimers s.timers) ((s.tickCount + 1) % 5 == 0))
  else (s, [])

/-- Run `n` consecutive ticks spaced 1000ms apart, collecting effects. -/
def runTicks (n : Nat) (now : Int) (s : ParticipantState) :
    ParticipantState × List Effect :=
  match n with
  | 0 => (s, [])
  | m + 1 =>
    let r1 := tick now s
    let r2 := runTicks m (now + 1000) r1.1
    (r2.1, r1.2 ++ r2.2)

/-- Bootstrap (`loadInitialData`): read the Durable Store; adopt its set
when non-empty, otherwise keep the current in-memory defaults and persist
them. The local cache is not consulted. -/
def loadInitialData (dbTimers current : TimerSet) : TimerSet × List Effect :=
  if dbTimers.length > 0 then (dbTimers, [])
  else (current, [Effect.storeWrite current])

/-- Recognizer for publish effects. -/
def isPublish : Effect → Bool
  | .publish _ _ => true
  | _ => false

/-- Recognizer for Durable Store write effects. -/
def isStoreWrite : Effect → Bool
  | .storeWrite _ => true
  | _ => false

/-- Recognizer for local cache write effects. -/
def isCacheWrite : Effect → Bool
  | .cacheWrite _ => true
  | _ => false

/-- Number of channel publishes in an effect trace. -/
def countPublishes (es : List Effect) : Nat := (es.filter isPublish).length

/-- Number of Durable Store writes in an effect trace. -/
def countStoreWrites (es : List Effect) : Nat := (es.filter isStoreWrite).length

/-- Number of local cache writes in an effect trace. -/
def countCacheWrites (es : List Effect) : Nat := (es.filter isCacheWrite).length

/-- A concrete participant state whose last-remote-broadcast marker is
set, used to exhibit behaviour of the mutations on a non-leader. -/
def markedState : ParticipantState :=
  { timers := defaultTimers "a" "b", lastBroadcastTime := 0,
    lastReceivedBroadcast := 12345, tickCount := 0 }

/-- A concrete cached timer set distinct from the synthesized defaults. -/
def cachedSet : TimerSet :=
  [ { id := "x", name := "Cached", timeRemaining := 7, totalTime := 9,
      state := .paused } ]

/-- A concrete fresh leader state holding one running timer at 10s. -/
def loneRunner : ParticipantState :=
  { timers := [ { id := "A", name := "T", timeRemaining := 10,
                  totalTime := 10, state := .running } ],
    lastBroadcastTime := 0, lastReceivedBroadcast := 0, tickCount := 0 }

/-- A concrete remote payload carrying `cachedSet` at timestamp 100. -/
def remotePayload : RawPayload :=
  { timers := some cachedSet, lastUpdate := some 100 }

/-- A concrete state holding one stopped timer whose time is exhausted. -/
def drained : ParticipantState :=
  { timers := [ { id := "Z", name := "T", timeRemaining := 0, totalTime := 5,
                  state := .stopped } ],
    lastBroadcastTime := 0, lastReceivedBroadcast := 0, tickCount := 0 }

/-- A concrete state holding one running timer at 50 of 60 seconds. -/
def retimeDemo : ParticipantState :=
  { timers := [ { id := "A", name := "T", timeRemaining := 50,
                  totalTime := 60, state := .running } ],
    lastBroadcastTime := 0, lastReceivedBroadcast := 0, tickCount := 0 }

/-- A concrete singleton-set state for the removal guard. -/
def singletonState : ParticipantState :=
  { timers := cachedSet, lastBroadcastTime := 0,
    lastReceivedBroadcast := 0, tickCount := 0 }

theorem decTimers_state (t : Timer) :
    (if t.state = .running then
        { t with timeRemaining := t.timeRemaining - 1 } else t).state
      = t.state := by
  split <;> rfl

theorem hasRunning_decTimers (ts : TimerSet) :
    hasRunning (decTimers ts) = hasRunning ts := by
  unfold hasRunning decTimers
  rw [List.any_map]
  congr 1
  funext t
  simp [Function.comp, decTimers_state]

theorem tick_leader (now : Int) (s : ParticipantState)
    (hL : ¬(now - s.lastReceivedBroadcast < 2000 ∧ s.lastReceivedBroadcast > 0))
    (hr : hasRunning s.timers = true) :
    tick now s =
      ({ s with timers := decTimers s.timers, tickCount := s.tickCount + 1,
                lastBroadcastTime := now },
        broadcastTimers now (decTimers s.timers) ((s.tickCount + 1) % 5 == 0)) := by
  unfold tick
  rw [if_neg hL, if_pos hr]

theorem tick_idle (now : Int) (s : ParticipantState)
    (hr : hasRunning s.timers = false) :
    tick now s = (s, []) := by
  unfold tick
  split
  · rfl
  · rw [if_neg]
    simp [hr]

theorem zero_marker_not_follower (now : Int) (s : ParticipantState)
    (hm : s.lastReceivedBroadcast = 0) :
    ¬(now - s.lastReceivedBroadcast < 2000 ∧ s.lastReceivedBroadcast > 0) := by
  rw [hm]
  intro h
  exact lt_irrefl 0 h.2

theorem countPublishes_append (a b : List Effect) :
    countPublishes (a ++ b) = countPublishes a + countPublishes b := by
  unfold countPublishes
  rw [List.filter_append, List.length_append]

theorem countStoreWrites_append (a b : List Effect) :
    countStoreWrites (a ++ b) = countStoreWrites a + countStoreWrites b := by
  unfold countStoreWrites
  rw [List.filter_append, List.length_append]

theorem countPublishes_broadcastTimers (now : Int) (ts : TimerSet) (save : Bool) :
    countPublishes (broadcastTimers now ts save) = 1 := by
  cases save <;>
    simp [broadcastTimers, countPublishes, isPublish, List.filter]

theorem countStoreWrites_broadcastTimers (now : Int) (ts : TimerSet) (save : Bool) :
    countStoreWrites (broadcastTimers now ts save) = if save then 1 else 0 := by
  cases save <;>
    simp [broadcastTimers, countStoreWrites, isStoreWrite, List.filter]

theorem runTicks_counts (n : Nat) (now : Int) (s : ParticipantState)
    (hm : s.lastReceivedBroadcast = 0) (hr : hasRunning s.timers = true) :
    countPublishes (runTicks n now s).2 = n ∧
    countStoreWrites (runTicks n now s).2 =
      (s.tickCount + n) / 5 - s.tickCount / 5 := by
  induction n generalizing now s with
  | zero => simp [runTicks, countPublishes, countStoreWrites, List.filter]
  | succ m ih =>
    have ht := tick_leader now s (zero_marker_not_follower now s hm) hr
    have hm1 : (tick now s).1.lastReceivedBroadcast = 0 := by rw [ht]; exact hm
    have hr1 : hasRunning (tick now s).1.timers = true := by
      rw [ht]
      simpa [hasRunning_decTimers] using hr
    have htc : (tick now s).1.tickCount = s.tickCount + 1 := by rw [ht]
    obtain ⟨ihp, ihs⟩ := ih (now + 1000) (tick now s).1 hm1 hr1
    have hrun : runTicks (m + 1) now s =
        ((runTicks m (now + 1000) (tick now s).1).1,
          (tick now s).2 ++ (runTicks m (now + 1000) (tick now s).1).2) := rfl
    constructor
    · rw [hrun]
      simp only [countPublishes_append, ihp]
      rw [ht]
      simp [countPublishes_broadcastTimers]
      omega
    · rw [hrun]
      simp only [countStoreWrites_append, ihs, htc]
      rw [ht]
      simp only [countStoreWrites_broadcastTimers]
      have h5 : ((s.tickCount + 1) % 5 == 0) = true ↔ (s.tickCount + 1) % 5 = 0 := by
        simp
      by_cases hd : (s.tickCount + 1) % 5 = 0
      · rw [if_pos (h5.mpr hd)]
        omega
      · rw [if_neg (fun hh => hd (h5.mp hh))]
        omega

theorem map_id_of_fixed {α : Type} (f : α → α) (l : List α)
    (h : ∀ x ∈ l, f x = x) : l.map f = l := by
  induction l with
  | nil => rfl
  | cons a l ih =>
    rw [List.map_cons, h a (List.mem_cons_self a l),
      ih (fun x hx => h x (List.mem_cons_of_mem a hx))]

theorem onBroadcast_eq (arrival : Int) (ts : TimerSet) (lu : Int)
    (s : ParticipantState) :
    onBroadcast arrival (some { timers := some ts, lastUpdate := some lu })
        s =
      if truthyInt lu then
        if (lu - s.lastBroadcastTime).natAbs > 50 then
          ({ s with lastReceivedBroadcast := arrival, timers := ts }, [])
        else (s, [])
      else (s, []) := rfl

/-- Claim C1 counterexample: on a state whose last-remote-broadcast marker
holds 12345, the pauseTimer mutation leaves the marker at 12345 instead of
clearing it to 0, so the claim fails for the pause operation. -/
theorem C1_counterexample :
    markedState.lastReceivedBroadcast = 12345 ∧
    (pauseTimer 99999 "a" markedState).1.lastReceivedBroadcast = 12345 :=
  ⟨rfl, rfl⟩

/-- Claim C1 (amended): among the lifecycle mutations only startTimer
clears the last-remote-broadcast marker; pause, reset, resetAll, pauseAll,
rename, retime, add and remove all leave the marker unchanged. -/
theorem C1_start_only_clears_marker (now : Int) (tid nm nid : String)
    (m sec cm cs : Int) (s : ParticipantState) :
    (startTimer now tid s).1.lastReceivedBroadcast = 0 ∧
    (pauseTimer now tid s).1.lastReceivedBroadcast =
      s.lastReceivedBroadcast ∧
    (resetTimer now tid s).1.lastReceivedBroadcast =
      s.lastReceivedBroadcast ∧
    (resetAll now s).1.lastReceivedBroadcast = s.lastReceivedBroadcast ∧
    (pauseAll now s).1.lastReceivedBroadcast = s.lastReceivedBroadcast ∧
    (updateTimerName now tid nm s).1.lastReceivedBroadcast =
      s.lastReceivedBroadcast ∧
    (updateTimerTime now tid m sec s).1.lastReceivedBroadcast =
      s.lastReceivedBroadcast ∧
    (addTimer now cm cs nid s).1.lastReceivedBroadcast =
      s.lastReceivedBroadcast ∧
    (removeTimer now tid s).1.lastReceivedBroadcast =
      s.lastReceivedBroadcast := by
  refine ⟨rfl, rfl, rfl, rfl, rfl, rfl, rfl, rfl, ?_⟩
  unfold removeTimer
  split <;> rfl

/-- Claim C2 counterexample: with an empty Durable Store read and a
non-empty local cache, bootstrap yields the synthesized defaults, not the
cache contents — the cache is never consulted. -/
theorem C2_counterexample :
    cachedSet ≠ [] ∧
    (loadInitialData [] (defaultTimers "a" "b")).1 ≠ cachedSet := by
  exact ⟨by decide, by decide⟩

/-- Claim C2 (amended): bootstrap adopts the Durable Store set when it is
non-empty; when the store yields empty the in-memory state keeps the
current defaults and persists them to the store — the local cache is not
read, so with both store and cache empty the synthesized default set (two
300-second stopped timers) results and is persisted. -/
theorem C2_bootstrap (db current : TimerSet) (id1 id2 : String) :
    (db ≠ [] → loadInitialData db current = (db, [])) ∧
    loadInitialData [] current = (current, [Effect.storeWrite current]) ∧
    (loadInitialData [] (defaultTimers id1 id2)).1 = defaultTimers id1 id2 ∧
    (defaultTimers id1 id2).length = 2 ∧
    (∀ t ∈ defaultTimers id1 id2,
      t.timeRemaining = 300 ∧ t.totalTime = 300 ∧ t.state = .stopped) := by
  refine ⟨?_, rfl, rfl, rfl, ?_⟩
  · intro h
    unfold loadInitialData
    rw [if_pos (List.length_pos.mpr h)]
  · intro t ht
    simp only [defaultTimers, List.mem_cons, List.not_mem_nil, or_false]
      at ht
    rcases ht with h | h <;> subst h <;> exact ⟨rfl, rfl, rfl⟩

/-- Witness for C2_bootstrap: a non-empty store read is adopted as is. -/
theorem C2_bootstrap_witness :
    loadInitialData cachedSet (defaultTimers "a" "b") = (cachedSet, []) :=
  (C2_bootstrap cachedSet (defaultTimers "a" "b") "a" "b").1 (by decide)

/-- Claim C3 counterexample: an accepted remote broadcast (timestamp 100
against last publish 0, beyond the deadband) replaces the in-memory set
but emits no effect at all — in particular no local cache write. -/
theorem C3_counterexample :
    (onBroadcast 500 (some remotePayload) markedState).1.timers =
      cachedSet ∧
    countCacheWrites (onBroadcast 500 (some remotePayload) markedState).2
      = 0 ∧
    (onBroadcast 500 (some remotePayload) markedState).2 = [] := by
  exact ⟨by decide, by decide, by decide⟩

/-- Claim C3 (amended): an accepted remote-origin broadcast replaces the
in-memory timer set with the payload set and records the arrival time in
the last-remote-broadcast marker; the receiver emits no external effect:
the Durable Store is not written and the local cache is not updated. -/
theorem C3_remote_apply (arrival lu : Int) (ts : TimerSet) (p : RawPayload)
    (s : ParticipantState) (hts : p.timers = some ts)
    (hlu : p.lastUpdate = some lu) (h0 : lu ≠ 0)
    (hdiff : (lu - s.lastBroadcastTime).natAbs > 50) :
    onBroadcast arrival (some p) s =
      ({ s with lastReceivedBroadcast := arrival, timers := ts }, []) := by
  obtain ⟨pt, pl⟩ := p
  have h1 : pt = some ts := hts
  have h2 : pl = some lu := hlu
  subst h1
  subst h2
  rw [onBroadcast_eq, if_pos (by simpa [truthyInt] using h0),
    if_pos hdiff]

/-- Witness for C3_remote_apply at a concrete accepted broadcast. -/
theorem C3_remote_apply_witness :
    onBroadcast 500 (some remotePayload) markedState =
      ({ markedState with lastReceivedBroadcast := 500,
                          timers := cachedSet }, []) :=
  C3_remote_apply 500 100 cachedSet remotePayload markedState rfl rfl
    (by decide) (by decide)

/-- Claim C10: a null payload, a payload lacking the timers field, one
lacking the lastUpdate field, or a well-shaped one whose lastUpdate is the
falsy timestamp 0, is dropped: the timer set and the marker are unchanged
and no effect is emitted. -/
theorem C10_malformed_dropped (arrival : Int) (s : ParticipantState) :
    onBroadcast arrival none s = (s, []) ∧
    (∀ lu : Int,
      onBroadcast arrival (some { timers := none, lastUpdate := some lu }) s
        = (s, [])) ∧
    (∀ ts : TimerSet,
      onBroadcast arrival (some { timers := some ts, lastUpdate := none }) s
        = (s, [])) ∧
    onBroadcast arrival (some { timers := none, lastUpdate := none }) s
      = (s, []) ∧
    (∀ ts : TimerSet,
      onBroadcast arrival (some { timers := some ts, lastUpdate := some 0 })
        s = (s, [])) := by
  refine ⟨rfl, fun lu => rfl, fun ts => rfl, rfl, fun ts => ?_⟩
  rw [onBroadcast_eq, if_neg]
  simp [truthyInt]

theorem tick_follower (now : Int) (s : ParticipantState)
    (h1 : now - s.lastReceivedBroadcast < 2000)
    (h2 : s.lastReceivedBroadcast > 0) :
    tick now s = (s, []) := by
  unfold tick
  rw [if_pos ⟨h1, h2⟩]

set_option maxRecDepth 4000 in
/-- Claim C4: on every leader tick, each running timer has its
timeRemaining decremented by exactly 1 with no lower bound and no state
change, and timers not running are unchanged; concretely, a lone running
timer at 10 seconds stands at -2 and is still running after 12
consecutive leader ticks. -/
theorem C4_leader_decrement :
    (∀ (now : Int) (s : ParticipantState),
      ¬(now - s.lastReceivedBroadcast < 2000 ∧
          s.lastReceivedBroadcast > 0) →
      hasRunning s.timers = true →
      ∀ i : Nat, ((tick now s).1.timers)[i]? =
        (s.timers[i]?).map fun t =>
          if t.state = .running then
            { t with timeRemaining := t.timeRemaining - 1 }
          else t) ∧
    (runTicks 12 0 loneRunner).1.timers =
      [ { id := "A", name := "T", timeRemaining := -2, totalTime := 10,
          state := .running } ] := by
  constructor
  · intro now s hL hr i
    rw [tick_leader now s hL hr]
    simp only [decTimers]
    rw [List.getElem?_map]
  · decide

/-- Witness for C4_leader_decrement on a concrete leader tick. -/
theorem C4_leader_decrement_witness :
    ((tick 5000 loneRunner).1.timers)[0]? =
      some { id := "A", name := "T", timeRemaining := 9, totalTime := 10,
             state := .running } := by
  rw [C4_leader_decrement.1 5000 loneRunner (by decide) (by decide) 0]
  decide

/-- Claim C5: from a fresh leader state (marker 0, tick counter 0) with a
running timer, n consecutive ticks emit exactly n broadcasts and exactly
n / 5 Durable Store writes; a counted leader tick writes the store exactly
when its tick number is a multiple of 5 (the 5th, 10th, ... ticks);
concretely 12 ticks emit 12 broadcasts and 2 store writes; and a tick on
which no timer is running changes nothing and emits nothing. -/
theorem C5_cadence :
    (∀ (n : Nat) (now : Int) (s : ParticipantState),
      s.lastReceivedBroadcast = 0 → s.tickCount = 0 →
      hasRunning s.timers = true →
      countPublishes (runTicks n now s).2 = n ∧
      countStoreWrites (runTicks n now s).2 = n / 5) ∧
    (∀ (now : Int) (s : ParticipantState),
      s.lastReceivedBroadcast = 0 → hasRunning s.timers = true →
      countStoreWrites (tick now s).2 =
        if (s.tickCount + 1) % 5 = 0 then 1 else 0) ∧
    (countPublishes (runTicks 12 0 loneRunner).2 = 12 ∧
      countStoreWrites (runTicks 12 0 loneRunner).2 = 2) ∧
    (∀ (now : Int) (s : ParticipantState),
      hasRunning s.timers = false → tick now s = (s, [])) := by
  refine ⟨?_, ?_, ⟨by decide, by decide⟩, tick_idle⟩
  · intro n now s hm htc hr
    obtain ⟨hp, hs⟩ := runTicks_counts n now s hm hr
    rw [htc] at hs
    refine ⟨hp, ?_⟩
    rw [hs]
    omega
  · intro now s hm hr
    rw [tick_leader now s (zero_marker_not_follower now s hm) hr]
    by_cases hd : (s.tickCount + 1) % 5 = 0 <;>
      simp [countStoreWrites_broadcastTimers, hd]

/-- Witness for C5_cadence at concrete runs: 7 fresh leader ticks give 7
broadcasts and 1 store write, and an idle state ticks to itself. -/
theorem C5_cadence_witness :
    countPublishes (runTicks 7 0 loneRunner).2 = 7 ∧
    countStoreWrites (runTicks 7 0 loneRunner).2 = 1 ∧
    countStoreWrites (tick 0 loneRunner).2 = 0 ∧
    tick 0 markedState = (markedState, []) := by
  have h1 := C5_cadence.1 7 0 loneRunner rfl rfl (by decide)
  have h2 := C5_cadence.2.1 0 loneRunner rfl (by decide)
  refine ⟨h1.1, ?_, ?_, C5_cadence.2.2.2 0 markedState (by decide)⟩
  · rw [h1.2]
  · rw [h2]
    decide

/-- Claim C6: a well-shaped broadcast whose timestamp is within 50ms of
this participant's last publish timestamp leaves the whole state (timer
set, marker, hence leader status) unchanged; one differing by more than
50ms is applied: the payload set is adopted, the marker is set to the
arrival time, and every tick in the following 2000ms window is skipped. -/
theorem C6_deadband (arrival lu : Int) (ts : TimerSet) (p : RawPayload)
    (s : ParticipantState) (hts : p.timers = some ts)
    (hlu : p.lastUpdate = some lu) (h0 : lu ≠ 0) :
    ((lu - s.lastBroadcastTime).natAbs ≤ 50 →
      onBroadcast arrival (some p) s = (s, [])) ∧
    ((lu - s.lastBroadcastTime).natAbs > 50 →
      (onBroadcast arrival (some p) s).1.timers = ts ∧
      (onBroadcast arrival (some p) s).1.lastReceivedBroadcast = arrival ∧
      (∀ now2 : Int, 0 < arrival → now2 - arrival < 2000 →
        tick now2 (onBroadcast arrival (some p) s).1 =
          ((onBroadcast arrival (some p) s).1, []))) := by
  obtain ⟨pt, pl⟩ := p
  have h1 : pt = some ts := hts
  have h2 : pl = some lu := hlu
  subst h1
  subst h2
  have htrue : truthyInt lu = true := by simpa [truthyInt] using h0
  constructor
  · intro hle
    rw [onBroadcast_eq, if_pos htrue, if_neg (by omega)]
  · intro hgt
    rw [onBroadcast_eq, if_pos htrue, if_pos hgt]
    refine ⟨rfl, rfl, ?_⟩
    intro now2 hpos hwin
    exact tick_follower now2 _ hwin hpos

/-- Witness for C6_deadband: with last publish at 0, a broadcast stamped
30 is ignored, while the concrete accepted broadcast stamped 100 sets the
marker to its arrival time 500 and the tick at 1000 is skipped. -/
theorem C6_deadband_witness :
    onBroadcast 500
        (some { timers := some cachedSet, lastUpdate := some 30 })
        markedState = (markedState, []) ∧
    (onBroadcast 500 (some remotePayload) markedState).1.timers =
      cachedSet ∧
    (onBroadcast 500 (some remotePayload)
        markedState).1.lastReceivedBroadcast = 500 ∧
    tick 1000 (onBroadcast 500 (some remotePayload) markedState).1 =
      ((onBroadcast 500 (some remotePayload) markedState).1, []) := by
  have hnear := (C6_deadband 500 30 cachedSet
    { timers := some cachedSet, lastUpdate := some 30 } markedState rfl rfl
    (by decide)).1 (by decide)
  have hfar := (C6_deadband 500 100 cachedSet remotePayload markedState
    rfl rfl (by decide)).2 (by decide)
  exact ⟨hnear, hfar.1, hfar.2.1, hfar.2.2 1000 (by decide) (by decide)⟩

theorem filter_ne_eq_eraseP (tid : String) (l : TimerSet)
    (h : (l.map Timer.id).Nodup) :
    l.filter (fun t => !(t.id == tid)) = l.eraseP (fun t => t.id == tid) := by
  induction l with
  | nil => rfl
  | cons t l ih =>
    rw [List.map_cons, List.nodup_cons] at h
    obtain ⟨hnot, hl⟩ := h
    by_cases ht : t.id = tid
    · subst ht
      have hall : ∀ u ∈ l, (!(u.id == t.id)) = true := by
        intro u hu
        simp only [Bool.not_eq_true', beq_eq_false_iff_ne]
        intro he
        exact hnot (he ▸ List.mem_map_of_mem Timer.id hu)
      rw [List.filter_cons, List.eraseP_cons]
      simp [List.filter_eq_self.mpr hall]
    · have hne : (t.id == tid) = false := beq_eq_false_iff_ne.mpr ht
      rw [List.filter_cons, List.eraseP_cons, hne, ih hl]
      simp

theorem eraseP_two_ne_nil (p : Timer → Bool) (t u : Timer) (l : TimerSet) :
    (t :: u :: l).eraseP p ≠ [] := by
  rw [List.eraseP_cons]
  cases hp : p t <;> simp

/-- Claim C7: removeTimer on a singleton set is a complete no-op; on a
set of more than one timer with unique ids it removes exactly the (at
most one) timer carrying the given id, keeping all others in order; hence
a non-empty set with unique ids never becomes empty. -/
theorem C7_remove_keeps_nonempty (now : Int) (tid : String)
    (s : ParticipantState) :
    (s.timers.length = 1 → removeTimer now tid s = (s, [])) ∧
    (s.timers.length > 1 → (s.timers.map Timer.id).Nodup →
      (removeTimer now tid s).1.timers =
        s.timers.eraseP (fun t => t.id == tid)) ∧
    (s.timers ≠ [] → (s.timers.map Timer.id).Nodup →
      (removeTimer now tid s).1.timers ≠ []) := by
  refine ⟨?_, ?_, ?_⟩
  · intro h1
    unfold removeTimer
    rw [if_pos (by omega)]
  · intro hlen hnd
    unfold removeTimer
    rw [if_neg (by omega)]
    exact filter_ne_eq_eraseP tid s.timers hnd
  · intro hne hnd
    by_cases hlen : s.timers.length ≤ 1
    · unfold removeTimer
      rw [if_pos hlen]
      exact hne
    · unfold removeTimer
      rw [if_neg hlen]
      show s.timers.filter (fun t => !(t.id == tid)) ≠ []
      rw [filter_ne_eq_eraseP tid s.timers hnd]
      rcases hts : s.timers with _ | ⟨t, _ | ⟨u, l⟩⟩
      · exact absurd hts hne
      · rw [hts] at hlen
        simp at hlen
      · exact eraseP_two_ne_nil _ t u l

/-- Witness for C7_remove_keeps_nonempty: removing the sole timer of a
singleton set is a no-op, and removal from the two-timer default set
leaves a non-empty set. -/
theorem C7_remove_keeps_nonempty_witness :
    removeTimer 0 "x" singletonState = (singletonState, []) ∧
    (removeTimer 0 "a" markedState).1.timers =
      markedState.timers.eraseP (fun t => t.id == "a") ∧
    (removeTimer 0 "a" markedState).1.timers ≠ [] := by
  refine ⟨(C7_remove_keeps_nonempty 0 "x" singletonState).1 (by decide),
    (C7_remove_keeps_nonempty 0 "a" markedState).2.1 (by decide) (by decide),
    (C7_remove_keeps_nonempty 0 "a" markedState).2.2 (by decide) (by decide)⟩

/-- Claim C8: retiming sets both time fields of the targeted timer to
minutes*60 + seconds and forces the stopped state whatever the prior
state, preserving its id and name and every other timer; concretely a
running timer at 50 of 60 retimed to (2, 0) becomes 120/120 stopped. -/
theorem C8_retime (now : Int) (tid : String) (minutes seconds : Int)
    (s : ParticipantState) :
    (∀ i : Nat,
      ((updateTimerTime now tid minutes seconds s).1.timers)[i]? =
        (s.timers[i]?).map fun t =>
          if t.id = tid then
            { t with timeRemaining := minutes * 60 + seconds,
                     totalTime := minutes * 60 + seconds,
                     state := .stopped }
          else t) ∧
    (updateTimerTime 0 "A" 2 0 retimeDemo).1.timers =
      [ { id := "A", name := "T", timeRemaining := 120, totalTime := 120,
          state := .stopped } ] := by
  constructor
  · intro i
    show (s.timers.map fun t =>
      if t.id = tid then
        { t with timeRemaining := minutes * 60 + seconds,
                 totalTime := minutes * 60 + seconds, state := .stopped }
      else t)[i]? = _
    rw [List.getElem?_map]
  · decide

/-- Claim C9: startTimer marks the targeted timer running exactly when its
timeRemaining is positive, touches no other timer, and when the target has
no time left the whole timer set is returned unchanged (a silent no-op). -/
theorem C9_start_guard (now : Int) (tid : String) (s : ParticipantState) :
    (∀ i : Nat, ((startTimer now tid s).1.timers)[i]? =
      (s.timers[i]?).map fun t =>
        if t.id = tid ∧ t.timeRemaining > 0 then { t with state := .running }
        else t) ∧
    ((∀ t ∈ s.timers, t.id = tid → t.timeRemaining ≤ 0) →
      (startTimer now tid s).1.timers = s.timers) := by
  constructor
  · intro i
    show (s.timers.map fun t =>
      if t.id = tid ∧ t.timeRemaining > 0 then { t with state := .running }
      else t)[i]? = _
    rw [List.getElem?_map]
  · intro h
    show (s.timers.map fun t =>
      if t.id = tid ∧ t.timeRemaining > 0 then { t with state := .running }
      else t) = s.timers
    apply map_id_of_fixed
    intro t ht
    rw [if_neg]
    rintro ⟨hid, hpos⟩
    have := h t ht hid
    omega

/-- Witness for C9_start_guard: starting the drained timer (0 seconds
left) leaves the set unchanged. -/
theorem C9_start_guard_witness :
    (startTimer 0 "Z" drained).1.timers = drained.timers :=
  (C9_start_guard 0 "Z" drained).2 (by decide)
